import Mathlib

/-!
Verification of the two notebooks of this repository against their
specification: the model-fitting notebook `MoreNotebooks/ModelFitting/NLLS.ipynb`
(namespace `NLLS`) and the interactive-plotting notebook (namespace `Inter`).
Floating-point quantities of the source are embedded as exact reals; the
widget and callback logic is embedded over rationals, lists and an explicit
figure state.  External library routines (the scipy optimizer, the numpy
Poisson sampler, the astropy model classes) are modelled only through the
interface the notebooks rely on, each with a doc comment saying so.
-/

namespace NLLS

/-- Continuum value at channel 0, from the data-generation cell (`cont_zp = 500.0`). -/
def cont_zp : ℝ := 500

/-- Change in continuum per channel (`cont_slope = 5.0`). -/
def cont_slope : ℝ := 5

/-- Peak of the line (`amplitude = 30.0`). -/
def amplitude : ℝ := 30

/-- Width of the line (`width = 0.5`). -/
def width : ℝ := 0.5

/-- Location of the line (`center = 5.0`). -/
def center : ℝ := 5

/-- Modelled from the numpy documentation: `np.linspace(a, b, n)` returns `n`
evenly spaced samples from `a` to `b` inclusive, sample `i` being
`a + (b - a) * i / (n - 1)`. -/
noncomputable def linspace (a b : ℝ) (n : ℕ) : Fin n → ℝ :=
  fun i => a + (b - a) * (i : ℕ) / ((n : ℝ) - 1)

/-- The wavelength grid of the data-generation cell: `wave = np.linspace(0,10,100)`. -/
noncomputable def wave : Fin 100 → ℝ := linspace 0 10 100

/-- The true observations of the data-generation cell:
`flux = amplitude*np.exp(-0.5*np.power(wave-center,2)/width**2) + cont_zp + + cont_slope*wave`
(the doubled plus sign in the source is a unary plus and has no effect). -/
noncomputable def flux : Fin 100 → ℝ := fun i =>
  amplitude * Real.exp (-0.5 * (wave i - center) ^ 2 / width ^ 2) +
    cont_zp + cont_slope * wave i

/-- The observed data `obs_flux = np.random.poisson(flux)`: one Poisson draw per
channel.  The sampler itself is external numpy code; it is abstracted as a
function `P` giving one realized natural-number draw for each mean value, and
the cell applies it channel-wise with no further transformation. -/
noncomputable def obs_flux (P : ℝ → ℕ) (i : Fin 100) : ℕ := P (flux i)

/-- The model function handed to `curve_fit` (`def model(x, cont, slope, amp,
center, width)` in the fitting cell): besides the x-data it takes exactly the
five scalar fit parameters. -/
noncomputable def model (x cont slope amp center width : ℝ) : ℝ :=
  amp * Real.exp (-0.5 * (x - center) ^ 2 / width ^ 2) + cont + slope * x

/-- The initial parameter guess of the `curve_fit` call:
`p0=(425.,0.0,80.,4.5,1.0)`. -/
noncomputable def p0 : List ℝ := [425, 0, 80, 4.5, 1]

/-- Modelled from the spec: `scipy.optimize.curve_fit` is an external solver;
what the repository relies on is only the shape of its outputs, namely that
the returned parameter vector `popt` and the square covariance matrix `pcov`
both have the dimension of the initial guess `p0`. -/
def curve_fit_dim (init : List ℝ) : ℕ := init.length

/-- Modelled from the spec: the pair returned by `curve_fit` for a fit of
dimension `n`, the best-fit parameter vector `popt` together with the `n` by
`n` covariance matrix `pcov`. -/
structure FitResult (n : ℕ) where
  popt : Fin n → ℝ
  pcov : Fin n → Fin n → ℝ

/-- The formula of the spec sentence, written exactly as the spec words it:
amplitude times exp of minus the squared offset over twice the squared width,
plus continuum zero-point, plus slope times x. -/
noncomputable def specModelFormula (x cont slope amp center width : ℝ) : ℝ :=
  amp * Real.exp (-((x - center) ^ 2) / (2 * width ^ 2)) + cont + slope * x

/-- Modelled from the spec: the astropy `Gaussian1D(amplitude, mean, stddev)`
model, an external library class, denotes the textbook Gaussian
`amplitude * exp(-(x-mean)^2 / (2*stddev^2))`. -/
noncomputable def Gaussian1D (amplitude mean stddev x : ℝ) : ℝ :=
  amplitude * Real.exp (-((x - mean) ^ 2) / (2 * stddev ^ 2))

/-- Modelled from the spec: the astropy `Linear1D(slope, intercept)` model, an
external library class, denotes `slope * x + intercept`. -/
def Linear1D (slope intercept x : ℝ) : ℝ := slope * x + intercept

end NLLS

namespace Inter

/-- One row of the SDSS spectral table `tab = pf[ext].data`: the two columns
the notebook reads are the flux and the log-wavelength. -/
structure SpecRow where
  flux : ℝ
  loglam : ℝ

/-- The flux array of the spectrum cell: the column `tab[flux]`. -/
def fluxCol (tab : List SpecRow) : List ℝ := tab.map SpecRow.flux

/-- The wavelength array of the spectrum cell: `10**tab[loglam]`, applied to
the log-wavelength column element-wise. -/
noncomputable def waveCol (tab : List SpecRow) : List ℝ :=
  tab.map fun r => (10 : ℝ) ^ r.loglam

/-- The tuple unpacking `zl, xl = image.shape`: succeeds exactly when the
shape list has two entries, that is when the array is 2-dimensional. -/
def unpack2 (shape : List ℕ) : Option (ℕ × ℕ) :=
  match shape with
  | [a, b] => some (a, b)
  | _ => none

/-- Modelled from the ipywidgets interface the notebook uses: the fields of
`widgets.IntSlider` the cells set, and the range of values the slider can
take. -/
structure IntSlider where
  value : ℤ
  min : ℤ
  max : ℤ
  step : ℤ

/-- A value the slider can be set to: anything between its min and its max. -/
def selectable (s : IntSlider) (v : ℤ) : Prop := s.min ≤ v ∧ v ≤ s.max

/-- The image-row slider of the 1-D-slice cell:
`widgets.IntSlider(value=150, min=0, max=zl, step=1, ...)` where
`zl, xl = image.shape`. -/
def row_slider (zl : ℕ) : IntSlider :=
  { value := 150, min := 0, max := (zl : ℤ), step := 1 }

/-- The spectrum slider of the SDSS cells:
`widgets.IntSlider(value=0, min=0, max=n_max, step=1, ...)` where
`n_max = len(sp)-1`. -/
def spec_slider (nsp : ℕ) : IntSlider :=
  { value := 0, min := 0, max := (nsp : ℤ) - 1, step := 1 }

/-- The slider callback of the 1-D-slice cell: `update` reads the image row
`image[change.new,:]`; an out-of-range row is a numpy IndexError, here
`none`. -/
def update (image : List (List ℚ)) (v : ℕ) : Option (List ℚ) := image[v]?

/-- The Python exceptions the modelled library calls can raise. -/
inductive PyErr where
  | typeError
  | indexError
  deriving DecidableEq

/-- The Python builtin `int()` applied to a float: truncation toward zero,
so floor for non-negative arguments and ceiling for negative ones. -/
def pyInt (q : ℚ) : ℤ := if 0 ≤ q then ⌊q⌋ else ⌈q⌉

/-- Modelled from the numpy indexing rules the callback relies on: an
integer index into one axis, negative indices counting from the end, and
everything out of range raising IndexError (here: `none`). -/
def npGet {α : Type} (l : List α) (i : ℤ) : Option α :=
  if 0 ≤ i then l[i.toNat]?
  else if 0 ≤ i + (l.length : ℤ) then l[(i + (l.length : ℤ)).toNat]?
  else none

/-- Two-axis numpy indexing `image[r, c]`: index the row, then the column. -/
def npGet2 (img : List (List ℚ)) (r c : ℤ) : Option ℚ :=
  (npGet img r).bind fun row => npGet row c

/-- The key-press callback of the Output-widget cell, value view: on the m
key it reads `image[int(yc), int(xc)]` and prints the triple
`(xc, yc, image[int(yc), int(xc)])`.  When the key press happens outside the
axes, `event.xdata` and `event.ydata` are `None` and the conversion
`int(None)` raises TypeError; an out-of-range pixel raises IndexError from
numpy.  The figure-state effect of the same callback is modelled separately
by `on_key_press_fig`. -/
def on_key_press (image : List (List ℚ)) (key : String) (xdata ydata : Option ℚ) :
    Except PyErr (Option (ℚ × ℚ × ℚ)) :=
  if key = "m" then
    match xdata, ydata with
    | some xc, some yc =>
      match npGet2 image (pyInt yc) (pyInt xc) with
      | some v => Except.ok (some (xc, yc, v))
      | none => Except.error PyErr.indexError
    | _, _ => Except.error PyErr.typeError
  else Except.ok none

/-- A matplotlib line artist added by `p.plot(xc, yc, ro, markersize=5)`:
a red circle marker of size 5 at the event coordinates. -/
structure Marker where
  x : Option ℚ
  y : Option ℚ
  color : String
  size : ℕ

/-- The figure state the callbacks touch: the artists added to the axes and
whether a canvas redraw has been requested. -/
structure FigState where
  markers : List Marker
  redrawPending : Bool

/-- The red marker of the m-key branch. -/
def redMarker (xc yc : Option ℚ) : Marker :=
  { x := xc, y := yc, color := "red", size := 5 }

/-- The call `p.plot(xc, yc, ro, markersize=5)`: appends one red marker
artist to the axes. -/
def plot_ro (s : FigState) (xc yc : Option ℚ) : FigState :=
  { s with markers := s.markers ++ [redMarker xc yc] }

/-- The method `fig.canvas.draw_idle` as a call: requests a canvas redraw. -/
def draw_idle (s : FigState) : FigState := { s with redrawPending := true }

/-- The key-press callback of the first event cell (and the identical m-key
branch of the other two key-press callbacks), figure-state view: on the m
key it calls `p.plot(xc, yc, ro, markersize=5)` and then evaluates the bare
expression statement `fig.canvas.draw_idle`, which merely accesses the bound
method and discards it without calling it, so the state is not touched by
that line. -/
def on_key_press_fig (s : FigState) (key : String) (xdata ydata : Option ℚ) :
    FigState :=
  if key = "m" then
    let s1 := plot_ro s xdata ydata
    let _idle := draw_idle
    s1
  else s

/-- The SDSS query cell: `xid = SDSS.query_region(...)` then
`sp = SDSS.get_spectra(matches=xid)` then `print(N =, len(sp))`, two
external astroquery calls run in sequence with no try/except around them;
an exception from either call propagates out of the cell unchanged. -/
def query_cell {Table Spec : Type} (query_region : Except PyErr Table)
    (get_spectra : Table → Except PyErr (List Spec)) : Except PyErr ℕ :=
  match query_region with
  | Except.error e => Except.error e
  | Except.ok xid =>
    match get_spectra xid with
    | Except.error e => Except.error e
    | Except.ok sp => Except.ok sp.length

end Inter

namespace NLLS

/-- The wavelength grid as the length-100 array it is in the source. -/
noncomputable def waveL : List ℝ := List.ofFn wave

/-- The true flux as the length-100 array it is in the source. -/
noncomputable def fluxL : List ℝ := List.ofFn flux

/-- The observed flux as the array numpy returns: one draw per channel. -/
noncomputable def obs_fluxL (P : ℝ → ℕ) : List ℕ := List.ofFn (obs_flux P)

end NLLS

/-- Helper: a list lookup below the length succeeds. -/
theorem getElem?_isSome_of_lt {α : Type} {l : List α} {i : ℕ}
    (h : i < l.length) : (l[i]?).isSome = true := by
  have h2 : l[i]? = some l[i] := List.getElem?_eq_some_iff.mpr ⟨h, rfl⟩
  rw [h2]
  rfl

/-- Helper: a coordinate strictly above -1 truncates to a non-negative
index, as every in-axes event coordinate of the notebook does. -/
theorem pyInt_nonneg {q : ℚ} (h : -1 < q) : 0 ≤ Inter.pyInt q := by
  unfold Inter.pyInt
  split
  · next h0 => exact Int.floor_nonneg.mpr h0
  · have h2 := Int.le_ceil q
    have h3 : (-1 : ℚ) < ⌈q⌉ := lt_of_lt_of_le h h2
    have h4 : (-1 : ℤ) < ⌈q⌉ := by exact_mod_cast h3
    omega

/-- C1: The least-squares fit is over exactly five scalar parameters, so the
parameter vector `popt` returned by `curve_fit` for the model function has
length 5 and the covariance matrix `pcov` is 5 by 5: the initial guess `p0`
of the call has length 5, and any fit result of that dimension has a length-5
parameter vector and a 5-row, 5-column covariance matrix. -/
theorem fit_has_five_parameters :
    NLLS.curve_fit_dim NLLS.p0 = 5 ∧
    ∀ r : NLLS.FitResult (NLLS.curve_fit_dim NLLS.p0),
      (List.ofFn r.popt).length = 5 ∧
      (List.ofFn fun i => List.ofFn fun j => r.pcov i j).length = 5 ∧
      ∀ i, (List.ofFn fun j => r.pcov i j).length = 5 := by
  refine ⟨rfl, fun r => ⟨?_, ?_, fun i => ?_⟩⟩ <;>
    simp [List.length_ofFn, NLLS.curve_fit_dim, NLLS.p0]

/-- C2: The Gaussian-plus-continuum model is the same textbook formula
everywhere it appears: the `curve_fit` model function equals the formula of
the spec sentence, it equals the compound astropy model `Gaussian1D + Linear1D`
at matching parameters, and the true flux array of the data-generation cell is
this formula evaluated at the true parameters over the wavelength grid. -/
theorem model_is_one_textbook_formula :
    (∀ x cont slope amp center width : ℝ,
      NLLS.model x cont slope amp center width =
        NLLS.specModelFormula x cont slope amp center width ∧
      NLLS.model x cont slope amp center width =
        NLLS.Gaussian1D amp center width x + NLLS.Linear1D slope cont x) ∧
    ∀ i : Fin 100,
      NLLS.flux i =
        NLLS.model (NLLS.wave i) NLLS.cont_zp NLLS.cont_slope NLLS.amplitude
          NLLS.center NLLS.width := by
  constructor
  · intro x cont slope amp center width
    have harg : -0.5 * (x - center) ^ 2 / width ^ 2 =
        -((x - center) ^ 2) / (2 * width ^ 2) := by ring
    constructor
    · simp only [NLLS.model, NLLS.specModelFormula, harg]
    · simp only [NLLS.model, NLLS.Gaussian1D, NLLS.Linear1D, harg]
      ring
  · intro i
    rfl

/-- C3: The synthetic-data step is a thin call into the numpy random
generator: in every wavelength channel the observed flux is one Poisson draw
whose mean parameter is exactly the true flux of that channel, the true flux
being non-negative everywhere, and no further transformation is applied. -/
theorem obs_flux_is_poisson_of_true_flux :
    ∀ (P : ℝ → ℕ) (i : Fin 100),
      NLLS.obs_flux P i = P (NLLS.flux i) ∧ 0 ≤ NLLS.flux i := by
  intro P i
  refine ⟨rfl, ?_⟩
  have hwave : 0 ≤ NLLS.wave i := by
    simp only [NLLS.wave, NLLS.linspace]
    positivity
  simp only [NLLS.flux, NLLS.amplitude, NLLS.cont_zp, NLLS.cont_slope]
  positivity

/-- C4: No operation defined in the repository catches, retries, translates,
or recovers from an error: the SDSS query cell and the key-press callback
raise exactly when an underlying library call raises, and the raised
exception reaches the caller unchanged. -/
theorem errors_propagate_unchanged :
    (∀ (Table Spec : Type) (qr : Except Inter.PyErr Table)
        (gs : Table → Except Inter.PyErr (List Spec)) (e : Inter.PyErr),
      Inter.query_cell qr gs = Except.error e ↔
        qr = Except.error e ∨ ∃ t, qr = Except.ok t ∧ gs t = Except.error e) ∧
    (∀ (image : List (List ℚ)) (key : String) (xd yd : Option ℚ)
        (e : Inter.PyErr),
      Inter.on_key_press image key xd yd = Except.error e ↔
        key = "m" ∧
          (((xd = none ∨ yd = none) ∧ e = Inter.PyErr.typeError) ∨
            ∃ xc yc, xd = some xc ∧ yd = some yc ∧
              Inter.npGet2 image (Inter.pyInt yc) (Inter.pyInt xc) = none ∧
              e = Inter.PyErr.indexError)) := by
  constructor
  · intro Table Spec qr gs e
    cases qr with
    | error e2 => simp [Inter.query_cell, eq_comm]
    | ok t =>
      cases h : gs t with
      | error e2 => simp [Inter.query_cell, h, eq_comm]
      | ok sp => simp [Inter.query_cell, h]
  · intro image key xd yd e
    by_cases hk : key = "m"
    · subst hk
      cases xd with
      | none => simp [Inter.on_key_press, eq_comm]
      | some xc =>
        cases yd with
        | none => simp [Inter.on_key_press, eq_comm]
        | some yc =>
          cases h : Inter.npGet2 image (Inter.pyInt yc) (Inter.pyInt xc) with
          | none => simp [Inter.on_key_press, h, eq_comm]
          | some v => simp [Inter.on_key_press, h]
    · simp [Inter.on_key_press, hk]

/-- C5: The image-row slider runs from 0 to `zl` where `(zl, xl)` is the
image shape, so at its maximum the update callback reads row `zl` of the
image, one past the last valid row, while every value strictly below the
maximum is in bounds; the spectrum slider tops out at `len(sp) - 1`, so
every selectable value of that slider indexes the spectrum list in
bounds. -/
theorem slider_bounds {α : Type} (image : List (List ℚ)) (zl : ℕ)
    (hzl : image.length = zl) (sp : List α) :
    (Inter.row_slider zl).max = (zl : ℤ) ∧
    Inter.update image ((Inter.row_slider zl).max).toNat = none ∧
    (∀ v : ℕ, v < zl → (Inter.update image v).isSome = true) ∧
    (Inter.spec_slider sp.length).max = (sp.length : ℤ) - 1 ∧
    (∀ v : ℤ, Inter.selectable (Inter.spec_slider sp.length) v →
      (sp[v.toNat]?).isSome = true) := by
  refine ⟨rfl, ?_, ?_, rfl, ?_⟩
  · have h1 : ((Inter.row_slider zl).max).toNat = zl := by
      simp [Inter.row_slider]
    rw [h1]
    simp only [Inter.update]
    exact List.getElem?_eq_none (by omega)
  · intro v hv
    simp only [Inter.update]
    exact getElem?_isSome_of_lt (by omega)
  · intro v hv
    obtain ⟨h1, h2⟩ := hv
    simp only [Inter.spec_slider] at h1 h2
    exact getElem?_isSome_of_lt (by omega)

/-- C5 witness: for a concrete 2-row image the row slider maximum reads one
row past the end. -/
theorem slider_bounds_witness :
    Inter.update [[(1 : ℚ)], [2]] ((Inter.row_slider 2).max).toNat = none :=
  (slider_bounds [[(1 : ℚ)], [2]] 2 rfl ([0, 1, 2] : List ℕ)).2.1

/-- C8: Every x-array/y-array pair handed to a plotting call has matching
lengths: `wave`, `flux` and `obs_flux` of the fitting notebook all have
length 100, the wavelength and flux columns of the spectrum cell come from
one table and have equal length, and the shape unpacking the image cells
perform succeeds exactly on a 2-dimensional shape. -/
theorem plotted_arrays_have_matching_lengths :
    NLLS.waveL.length = 100 ∧
    NLLS.fluxL.length = 100 ∧
    (∀ P : ℝ → ℕ, (NLLS.obs_fluxL P).length = NLLS.waveL.length) ∧
    (∀ tab : List Inter.SpecRow,
      (Inter.waveCol tab).length = (Inter.fluxCol tab).length) ∧
    (∀ (s : List ℕ) (zl xl : ℕ), Inter.unpack2 s = some (zl, xl) →
      s.length = 2) := by
  refine ⟨?_, ?_, fun P => ?_, fun tab => ?_, ?_⟩
  · simp only [NLLS.waveL, List.length_ofFn]
  · simp only [NLLS.fluxL, List.length_ofFn]
  · simp only [NLLS.obs_fluxL, NLLS.waveL, List.length_ofFn]
  · simp only [Inter.waveCol, Inter.fluxCol, List.length_map]
  · intro s zl xl h
    cases s with
    | nil => simp [Inter.unpack2] at h
    | cons a t =>
      cases t with
      | nil => simp [Inter.unpack2] at h
      | cons b t2 =>
        cases t2 with
        | nil => rfl
        | cons c t3 => simp [Inter.unpack2] at h

/-- C8 witness: a concrete successful shape unpacking comes from a length-2
shape list. -/
theorem plotted_arrays_have_matching_lengths_witness :
    ([5, 7] : List ℕ).length = 2 :=
  plotted_arrays_have_matching_lengths.2.2.2.2 [5, 7] 5 7 rfl

/-- C9: The Output-widget key-press callback indexes the image as
`image[int(yc), int(xc)]`, row from the y coordinate and column from the x
coordinate, both truncated toward zero; for an in-axes press it is
well-defined exactly when both truncated indices are in bounds, and for a
press outside the axes the event coordinates are `None` and the integer
conversion fails with a TypeError. -/
theorem key_press_pixel_indexing (image : List (List ℚ)) (xl : ℕ)
    (hrect : ∀ row ∈ image, row.length = xl) (xc yc : ℚ)
    (hx : -1 < xc) (hy : -1 < yc) :
    (∀ yd, Inter.on_key_press image "m" none yd =
      Except.error Inter.PyErr.typeError) ∧
    (∀ xd, Inter.on_key_press image "m" xd none =
      Except.error Inter.PyErr.typeError) ∧
    ((∃ out, Inter.on_key_press image "m" (some xc) (some yc) = Except.ok out) ↔
      (Inter.pyInt yc).toNat < image.length ∧ (Inter.pyInt xc).toNat < xl) ∧
    ∀ hrow : (Inter.pyInt yc).toNat < image.length,
      ∀ hcol : (Inter.pyInt xc).toNat < (image[(Inter.pyInt yc).toNat]).length,
        Inter.on_key_press image "m" (some xc) (some yc) =
          Except.ok (some (xc, yc,
            (image[(Inter.pyInt yc).toNat])[(Inter.pyInt xc).toNat])) := by
  have hry : 0 ≤ Inter.pyInt yc := pyInt_nonneg hy
  have hrx : 0 ≤ Inter.pyInt xc := pyInt_nonneg hx
  have hg2 : Inter.npGet2 image (Inter.pyInt yc) (Inter.pyInt xc) =
      (image[(Inter.pyInt yc).toNat]?).bind
        fun row => row[(Inter.pyInt xc).toNat]? := by
    simp [Inter.npGet2, Inter.npGet, hry, hrx]
  refine ⟨fun yd => by cases yd <;> rfl, fun xd => by cases xd <;> rfl, ?_, ?_⟩
  · constructor
    · rintro ⟨out, hout⟩
      cases hv : Inter.npGet2 image (Inter.pyInt yc) (Inter.pyInt xc) with
      | none => simp [Inter.on_key_press, hv] at hout
      | some v =>
        rw [hg2] at hv
        cases himg : image[(Inter.pyInt yc).toNat]? with
        | none => rw [himg] at hv; simp at hv
        | some row =>
          rw [himg] at hv
          simp only [Option.some_bind] at hv
          obtain ⟨hcol, hvv⟩ := List.getElem?_eq_some_iff.mp hv
          obtain ⟨hrow, hrr⟩ := List.getElem?_eq_some_iff.mp himg
          have hmem : row ∈ image := hrr ▸ List.getElem_mem hrow
          have hlen : row.length = xl := hrect row hmem
          exact ⟨hrow, hlen ▸ hcol⟩
    · rintro ⟨h1, h2⟩
      have hrr : image[(Inter.pyInt yc).toNat]? =
          some (image[(Inter.pyInt yc).toNat]) :=
        List.getElem?_eq_some_iff.mpr ⟨h1, rfl⟩
      have hmem : image[(Inter.pyInt yc).toNat] ∈ image := List.getElem_mem h1
      have hlen : (image[(Inter.pyInt yc).toNat]).length = xl := hrect _ hmem
      have hcol : (Inter.pyInt xc).toNat < (image[(Inter.pyInt yc).toNat]).length := by
        omega
      have hv : Inter.npGet2 image (Inter.pyInt yc) (Inter.pyInt xc) =
          some ((image[(Inter.pyInt yc).toNat])[(Inter.pyInt xc).toNat]) := by
        rw [hg2, hrr]
        simp only [Option.some_bind]
        exact List.getElem?_eq_some_iff.mpr ⟨hcol, rfl⟩
      exact ⟨some (xc, yc, (image[(Inter.pyInt yc).toNat])[(Inter.pyInt xc).toNat]),
        by simp [Inter.on_key_press, hv]⟩
  · intro hrow hcol
    have hrr : image[(Inter.pyInt yc).toNat]? =
        some (image[(Inter.pyInt yc).toNat]) :=
      List.getElem?_eq_some_iff.mpr ⟨hrow, rfl⟩
    have hv : Inter.npGet2 image (Inter.pyInt yc) (Inter.pyInt xc) =
        some ((image[(Inter.pyInt yc).toNat])[(Inter.pyInt xc).toNat]) := by
      rw [hg2, hrr]
      simp only [Option.some_bind]
      exact List.getElem?_eq_some_iff.mpr ⟨hcol, rfl⟩
    simp [Inter.on_key_press, hv]

/-- C9 witness: on a concrete 2 by 2 image, the m key at in-axes
coordinates (1, 0) prints pixel value 2, read from row 0, column 1. -/
theorem key_press_pixel_indexing_witness :
    Inter.on_key_press [[(1 : ℚ), 2], [3, 4]] "m" (some 1) (some 0) =
      Except.ok (some (1, 0, 2)) :=
  (key_press_pixel_indexing [[(1 : ℚ), 2], [3, 4]] 2 (by decide) 1 0
    (by decide) (by decide)).2.2.2 (by decide) (by decide)

/-- C10: On the m key the key-press callbacks append exactly one red marker
artist to the axes and change nothing else about the figure: the bare
expression statement `fig.canvas.draw_idle` accesses the method without
calling it, so the callback never flips the redraw-pending flag, whereas an
actual call of `draw_idle` would set it. -/
theorem m_key_adds_marker_without_redraw :
    ∀ (s : Inter.FigState) (key : String) (xd yd : Option ℚ),
      Inter.on_key_press_fig s key xd yd =
        (if key = "m" then
          { markers := s.markers ++ [Inter.redMarker xd yd],
            redrawPending := s.redrawPending }
        else s) ∧
      (Inter.on_key_press_fig s key xd yd).redrawPending = s.redrawPending ∧
      (Inter.draw_idle s).redrawPending = true := by
  intro s key xd yd
  refine ⟨?_, ?_, rfl⟩
  · by_cases hk : key = "m"
    · subst hk
      rfl
    · simp [Inter.on_key_press_fig, hk]
  · by_cases hk : key = "m"
    · subst hk
      rfl
    · simp [Inter.on_key_press_fig, hk]
